import Mathlib

/-!
Shallow embedding of the licensing facade of this repository:
- `src/packages/cli/src/License.ts`, which contains two variants of the
  `License` class separated by a document separator (embedded below as
  namespaces `V1` for the first variant, lines 1-410, and `V2` for the
  second variant, lines 411-850);
- `src/packages/@n8n/backend-common/src/license-state.ts` (`LicenseState`).

External collaborators (process configuration, the settings repository,
the orchestration service, instance settings, the object store and the
pub/sub command channel) are modelled as explicit state records, exactly
at the granularity the embedded methods read and write them.
-/

/-- Modelled from the spec: the fixed settings key under which the license
certificate is persisted (`SETTINGS_LICENSE_CERT_KEY` from `./constants`,
a file not present in the excerpt; the spec gives it as a fixed constant,
e.g. `license.cert`). Only its fixedness matters for the proofs. -/
def SETTINGS_LICENSE_CERT_KEY : String := "settings.license.cert"

/-- Modelled from the spec: the sentinel quota value meaning "unlimited"
(`UNLIMITED_LICENSE_QUOTA` from `./constants`, a file not present in the
excerpt). Its concrete value is irrelevant to the proofs. -/
def UNLIMITED_LICENSE_QUOTA : Int := -1

/-- One row of the settings storage, as written by `License.saveCertStr`
(`key`, `value`, `loadOnStartup`). -/
structure Setting where
  key : String
  value : String
  loadOnStartup : Bool
  deriving DecidableEq, Repr

/-- The settings repository state: the list of stored rows. -/
abbrev SettingsDb : Type := List Setting

/-- `settingsRepository.findOne(\x7b where: \x7b key \x7d \x7d)`: the first row whose
key matches, if any. -/
def findOneByKey (db : SettingsDb) (k : String) : Option Setting :=
  db.find? (fun s => s.key == k)

/-- `settingsRepository.upsert(entity, [\x27key\x27])`: overwrite every row whose
key matches the entity, or append the entity when no row matches. -/
def upsertByKey (db : SettingsDb) (e : Setting) : SettingsDb :=
  if db.any (fun s => s.key == e.key) then
    db.map (fun s => if s.key == e.key then e else s)
  else db ++ [e]

/-- The slice of process configuration the embedded methods read
(`config.getEnv` / `config.get` / `globalConfig`). An unset ephemeral
certificate (`license.cert`) is the empty string, which is falsy in the
source. -/
structure Config where
  licenseCert : String
  licenseServerUrl : String
  licenseTenantId : Nat
  autoRenewEnabled : Bool
  autoRenewOffset : Nat
  multiMainSetupEnabled : Bool
  multiMainInstanceType : String
  executionsMode : String
  binaryDataMode : String
  binaryDataAvailableModes : List String
  deriving DecidableEq, Repr

/-- Modelled from the spec: the `InstanceSettings` collaborator from
`n8n-core` (not in the excerpt); the second `License` variant reads its
`instanceType`, `isFollower` and `instanceId`. -/
structure InstanceSettings where
  instanceType : String
  isFollower : Bool
  instanceId : String
  deriving DecidableEq, Repr

/-- Modelled from the spec: the orchestration collaborator surface used by
the feature-change reactor: `setMultiMainSetupLicensed(bool)`,
`isMultiMainSetupEnabled`, `isFollower`. The licensed flag starts unset. -/
structure OrchestrationService where
  isMultiMainSetupEnabled : Bool
  isFollower : Bool
  multiMainSetupLicensed : Option Bool
  deriving DecidableEq, Repr

/-- `orchestrationService.setMultiMainSetupLicensed(b)`. -/
def OrchestrationService.setMultiMainSetupLicensed
    (o : OrchestrationService) (b : Bool) : OrchestrationService :=
  { o with multiMainSetupLicensed := some b }

/-- Modelled from the spec: the object-store collaborator; the reactor only
calls `setReadonly(true)` on it. -/
structure ObjectStoreService where
  isReadOnly : Bool
  deriving DecidableEq, Repr

/-- `objectStoreService.setReadonly(b)`. -/
def ObjectStoreService.setReadonly (s : ObjectStoreService) (b : Bool) :
    ObjectStoreService :=
  { s with isReadOnly := b }

/-- A message published to the shared command channel. -/
structure PubSubCommand where
  command : String
  deriving DecidableEq, Repr

/-- The feature set passed to `onFeatureChange` (`TFeatures`): feature name
to boolean flag. Both embedded reactors ignore it, exactly as the source
does. -/
abbrev Features : Type := List (String × Bool)

/-- Lookup of a feature flag in a received feature set. -/
def Features.flag (f : Features) (name : String) : Option Bool :=
  List.lookup name f

/-- The scalar options `License.init` passes to the `LicenseManager`
constructor (the wired callbacks are function-valued and carry no state of
their own; `offlineMode` records the non-main posture they encode). -/
structure LicenseManagerOptions where
  server : String
  tenantId : Nat
  autoRenewEnabled : Bool
  renewOnInit : Bool
  autoRenewOffset : Nat
  offlineMode : Bool
  deriving DecidableEq, Repr

/-- A constructed `LicenseManager` handle: a fresh identity plus the
options it was constructed with. -/
structure LicenseManager where
  id : Nat
  options : LicenseManagerOptions
  deriving DecidableEq, Repr

namespace V1

/-- The mutable state of the first `License` class variant
(`License.ts` lines 29-410): the optional manager handle and the
shutting-down flag. -/
structure License where
  manager : Option LicenseManager
  isShuttingDown : Bool
  deriving DecidableEq, Repr

/-- The state of a freshly constructed `License` (fields at declaration:
`manager` undefined, `isShuttingDown = false`). -/
def License.mkFresh : License :=
  { manager := none, isShuttingDown := false }

/-- `License.renewalEnabled(instanceType)` (lines 47-62): `false` unless
the instance type is `main`; in multi-main setup, auto-renew config AND
this instance configured as leader; otherwise `false`. -/
def renewalEnabled (cfg : Config) (instanceType : String) : Bool :=
  if instanceType != "main" then false
  else
    let autoRenewEnabled := cfg.autoRenewEnabled
    if cfg.multiMainSetupEnabled then
      autoRenewEnabled && (cfg.multiMainInstanceType == "leader")
    else
      false

/-- `License.init(instanceType, forceRecreate)` (lines 64-116): return
unchanged when a manager exists and recreation is not forced, or when
shutting down; otherwise construct a fresh manager handle (assignment
happens before the awaited `manager.initialize()`, whose possible failure
is caught and swallowed, so the handle stays assigned either way). -/
def License.init (cfg : Config) (s : License) (instanceType : String)
    (forceRecreate : Bool) (freshId : Nat) : License :=
  if s.manager.isSome && !forceRecreate then s
  else if s.isShuttingDown then s
  else
    let isMainInstance := instanceType == "main"
    let renewal := renewalEnabled cfg instanceType
    { s with
      manager := some
        { id := freshId
          options :=
            { server := cfg.licenseServerUrl
              tenantId := cfg.licenseTenantId
              autoRenewEnabled := renewal
              renewOnInit := renewal
              autoRenewOffset := cfg.autoRenewOffset
              offlineMode := !isMainInstance } } }

/-- `License.shutdown()` (lines 220-231): set `isShuttingDown` first, then
(when a manager exists) await the handle's own shutdown, which does not
change the `License` fields. -/
def License.shutdown (s : License) : License :=
  { s with isShuttingDown := true }

/-- Arguments of one `init` call of the first variant. -/
structure InitArgs where
  instanceType : String
  forceRecreate : Bool
  deriving DecidableEq, Repr

/-- Run a sequence of `init` calls, drawing a fresh handle identity for
each call from an increasing counter. -/
def License.runInits (cfg : Config) : License → Nat → List InitArgs → License
  | s, _, [] => s
  | s, fresh, a :: rest =>
      License.runInits cfg (License.init cfg s a.instanceType a.forceRecreate fresh)
        (fresh + 1) rest

/-- `License.loadCertStr()` (lines 118-131): an ephemeral certificate, when
configured (truthy, i.e. nonempty), is returned without touching storage;
otherwise the stored row's value, or the empty string when absent. -/
def loadCertStr (cfg : Config) (db : SettingsDb) : String :=
  if cfg.licenseCert != "" then cfg.licenseCert
  else
    match findOneByKey db SETTINGS_LICENSE_CERT_KEY with
    | some s => s.value
    | none => ""

/-- `License.saveCertStr(value)` (lines 183-194): a no-op when an ephemeral
certificate is configured; otherwise upsert the fixed key with the value
and `loadOnStartup = false`. Returns the resulting storage state. -/
def saveCertStr (cfg : Config) (db : SettingsDb) (value : String) : SettingsDb :=
  if cfg.licenseCert != "" then db
  else upsertByKey db { key := SETTINGS_LICENSE_CERT_KEY, value := value, loadOnStartup := false }

/-- The observable outcome of one `onFeatureChange` invocation: the
orchestration state, the messages published to the command channel, and
the object-store state. -/
structure FeatureChangeResult where
  orchestration : OrchestrationService
  published : List PubSubCommand
  objectStore : ObjectStoreService
  deriving DecidableEq, Repr

/-- The tail of `onFeatureChange` past the possible follower early return
(lines 159-180): in queue mode publish one `reloadLicense` command; then
set the object store read-only when s3 is selected, available and not
licensed — with `isS3Licensed` hardcoded to `true` in this source. -/
def onFeatureChangeTail (cfg : Config) (orch : OrchestrationService)
    (store : ObjectStoreService) : FeatureChangeResult :=
  let published :=
    if cfg.executionsMode == "queue" then
      [{ command := "reloadLicense" : PubSubCommand }]
    else []
  let isS3Selected := cfg.binaryDataMode == "s3"
  let isS3Available := cfg.binaryDataAvailableModes.contains "s3"
  let isS3Licensed := true
  let store1 :=
    if isS3Selected && isS3Available && !isS3Licensed then
      store.setReadonly true
    else store
  { orchestration := orch, published := published, objectStore := store1 }

/-- `License.onFeatureChange(_features)` (lines 133-181). In queue mode
with multi-main enabled: `isMultiMainLicensed` is hardcoded `true`,
propagated to the orchestration service; a follower then returns early
before any publish. Otherwise fall through to the publish and object-store
steps. The `_features` argument is ignored, exactly as in the source. -/
def onFeatureChange (cfg : Config) (orch : OrchestrationService)
    (store : ObjectStoreService) (_features : Features) : FeatureChangeResult :=
  let isMultiMainLicensed := true
  if cfg.executionsMode == "queue" && cfg.multiMainSetupEnabled then
    let orch1 := orch.setMultiMainSetupLicensed isMultiMainLicensed
    if orch1.isMultiMainSetupEnabled && orch1.isFollower then
      { orchestration := orch1, published := [], objectStore := store }
    else
      onFeatureChangeTail cfg orch1 store
  else
    onFeatureChangeTail cfg orch store

/-- `License.getUsersLimit()` (lines 364-367): the unlimited quota
constant, unconditionally. -/
def License.getUsersLimit (_s : License) : Int :=
  UNLIMITED_LICENSE_QUOTA

/-- `License.isWithinUsersLimit()` (lines 402-404): strict equality of
`getUsersLimit()` with the unlimited quota constant. -/
def License.isWithinUsersLimit (s : License) : Bool :=
  s.getUsersLimit == UNLIMITED_LICENSE_QUOTA

end V1

namespace V2

/-- The mutable state of the second `License` class variant
(`License.ts` lines 440-850). -/
structure License where
  manager : Option LicenseManager
  isShuttingDown : Bool
  deriving DecidableEq, Repr

/-- The state of a freshly constructed `License` of the second variant. -/
def License.mkFresh : License :=
  { manager := none, isShuttingDown := false }

/-- `License.renewalEnabled()` (lines 459-475): the body begins with an
unconditional `return false`; everything after it is dead code (and the
surviving live statements there return nothing anyway). -/
def renewalEnabled (_inst : InstanceSettings) (_cfg : Config) : Bool :=
  false

/-- `License.init(forceRecreate)` (lines 477-537): same guards as the
first variant; the instance type now comes from `instanceSettings`. -/
def License.init (cfg : Config) (inst : InstanceSettings) (s : License)
    (forceRecreate : Bool) (freshId : Nat) : License :=
  if s.manager.isSome && !forceRecreate then s
  else if s.isShuttingDown then s
  else
    let instanceType := inst.instanceType
    let isMainInstance := instanceType == "main"
    let renewal := renewalEnabled inst cfg
    { s with
      manager := some
        { id := freshId
          options :=
            { server := cfg.licenseServerUrl
              tenantId := cfg.licenseTenantId
              autoRenewEnabled := renewal
              renewOnInit := renewal
              autoRenewOffset := cfg.autoRenewOffset
              offlineMode := !isMainInstance } } }

/-- `License.shutdown()` (lines 637-649): set `isShuttingDown` first, then
(when a manager exists) await the handle's own shutdown. -/
def License.shutdown (s : License) : License :=
  { s with isShuttingDown := true }

/-- Run a sequence of `init(forceRecreate)` calls of the second variant,
drawing a fresh handle identity for each call. -/
def License.runInits (cfg : Config) (inst : InstanceSettings) :
    License → Nat → List Bool → License
  | s, _, [] => s
  | s, fresh, fr :: rest =>
      License.runInits cfg inst (License.init cfg inst s fr fresh) (fresh + 1) rest

/-- The observable outcome of one `onFeatureChange` invocation of the
second variant. -/
structure FeatureChangeResult where
  orchestration : OrchestrationService
  published : List PubSubCommand
  objectStore : ObjectStoreService
  deriving DecidableEq, Repr

/-- The tail of the second variant's `onFeatureChange` past the possible
follower early return (lines 579-596): in queue mode publish one
`reload-license` command via the Publisher; then the s3 read-only step
with `isS3Licensed` hardcoded to `true`. -/
def onFeatureChangeTail (cfg : Config) (orch : OrchestrationService)
    (store : ObjectStoreService) : FeatureChangeResult :=
  let published :=
    if cfg.executionsMode == "queue" then
      [{ command := "reload-license" : PubSubCommand }]
    else []
  let isS3Selected := cfg.binaryDataMode == "s3"
  let isS3Available := cfg.binaryDataAvailableModes.contains "s3"
  let isS3Licensed := true
  let store1 :=
    if isS3Selected && isS3Available && !isS3Licensed then
      store.setReadonly true
    else store
  { orchestration := orch, published := published, objectStore := store1 }

/-- `License.onFeatureChange(_features)` (lines 554-596). As in the first
variant, but the follower check reads `instanceSettings.isFollower` and
the multi-main flag comes from `globalConfig.multiMainSetup.enabled`. -/
def onFeatureChange (cfg : Config) (inst : InstanceSettings)
    (orch : OrchestrationService) (store : ObjectStoreService)
    (_features : Features) : FeatureChangeResult :=
  let isMultiMainLicensed := true
  if cfg.executionsMode == "queue" && cfg.multiMainSetupEnabled then
    let orch1 := orch.setMultiMainSetupLicensed isMultiMainLicensed
    if orch1.isMultiMainSetupEnabled && inst.isFollower then
      { orchestration := orch1, published := [], objectStore := store }
    else
      onFeatureChangeTail cfg orch1 store
  else
    onFeatureChangeTail cfg orch store

/-- `License.getUsersLimit()` (lines 802-805): the unlimited quota
constant, unconditionally. -/
def License.getUsersLimit (_s : License) : Int :=
  UNLIMITED_LICENSE_QUOTA

/-- `License.isWithinUsersLimit()` (lines 841-843): strict equality of
`getUsersLimit()` with the unlimited quota constant. -/
def License.isWithinUsersLimit (s : License) : Bool :=
  s.getUsersLimit == UNLIMITED_LICENSE_QUOTA

end V2

/-- The value shapes a feature query can return
(`FeatureReturnType`: plan-name strings, numeric quotas, boolean flags). -/
inductive FeatureValue where
  | num (n : Int)
  | str (s : String)
  | boolVal (b : Bool)
  deriving DecidableEq, Repr

/-- The errors the `LicenseState` facade can throw. `providerNotSet`
carries the message of `ProviderNotSetError`
(`license-state.ts` lines 7-11). -/
inductive LicenseStateError where
  | providerNotSet (message : String)
  deriving DecidableEq, Repr

/-- The distinguished error thrown when no provider is installed, with the
exact message from the `ProviderNotSetError` constructor. -/
def providerNotSetError : LicenseStateError :=
  .providerNotSet "Cannot query license state because license provider has not been set"

/-- The `LicenseProvider` interface the facade queries (its `types` module
is not in the excerpt; the shape is fixed by the two calls the facade
makes: `isLicensed(feature)` and `getValue(feature)`). -/
structure LicenseProvider where
  isLicensed : String → Bool
  getValue : String → Option FeatureValue

/-- The `LicenseState` facade state (`license-state.ts` lines 14-19):
the provider reference, `null` until `setLicenseProvider` installs one. -/
structure LicenseState where
  licenseProvider : Option LicenseProvider

/-- `LicenseState.setLicenseProvider(provider)` (lines 17-19). -/
def LicenseState.setLicenseProvider (_s : LicenseState) (p : LicenseProvider) :
    LicenseState :=
  { licenseProvider := some p }

/-- `LicenseState.isLicensed(feature)` (lines 29-33): `assertProvider`
throws the provider-not-set error when no provider is installed; otherwise
delegate to the provider. -/
def LicenseState.isLicensed (s : LicenseState) (feature : String) :
    Except LicenseStateError Bool :=
  match s.licenseProvider with
  | none => .error providerNotSetError
  | some p => .ok (p.isLicensed feature)

/-- `LicenseState.getValue(feature)` (lines 35-39): `assertProvider`
throws the provider-not-set error when no provider is installed; otherwise
delegate to the provider. -/
def LicenseState.getValue (s : LicenseState) (feature : String) :
    Except LicenseStateError (Option FeatureValue) :=
  match s.licenseProvider with
  | none => .error providerNotSetError
  | some p => .ok (p.getValue feature)

/-! Concrete fixtures used by witnesses and counterexamples. -/

/-- A baseline configuration: no ephemeral certificate, regular execution
mode, multi-main disabled, default binary-data mode. -/
def cfg0 : Config :=
  { licenseCert := ""
    licenseServerUrl := "https://license.example/v1"
    licenseTenantId := 1
    autoRenewEnabled := true
    autoRenewOffset := 3600
    multiMainSetupEnabled := false
    multiMainInstanceType := "unset"
    executionsMode := "regular"
    binaryDataMode := "default"
    binaryDataAvailableModes := ["default"] }

/-- Main-typed instance settings, not a follower. -/
def instMain : InstanceSettings :=
  { instanceType := "main", isFollower := false, instanceId := "instance-1" }

/-- Main-typed instance settings, a follower. -/
def instFollower : InstanceSettings :=
  { instanceType := "main", isFollower := true, instanceId := "instance-2" }

/-- Orchestration state: multi-main setup off, not a follower, licensed
flag unset. -/
def orch0 : OrchestrationService :=
  { isMultiMainSetupEnabled := false, isFollower := false, multiMainSetupLicensed := none }

/-- Orchestration state: multi-main setup on, a follower, licensed flag
unset. -/
def orchFollower : OrchestrationService :=
  { isMultiMainSetupEnabled := true, isFollower := true, multiMainSetupLicensed := none }

/-- Orchestration state: multi-main setup on, the leader, licensed flag
unset. -/
def orchLeader : OrchestrationService :=
  { isMultiMainSetupEnabled := true, isFollower := false, multiMainSetupLicensed := none }

/-- An object store accepting writes. -/
def store0 : ObjectStoreService := { isReadOnly := false }

/-- A received feature set in which the s3 feature is not licensed. -/
def featsS3Unlicensed : Features := [("feat:binaryDataS3", false)]

/-! Helper lemmas about the lifecycle guards. -/

/-- A first-variant `init` without `forceRecreate` on a state that already
holds a manager returns the state unchanged. -/
theorem v1_init_noop_of_isSome (cfg : Config) (s : V1.License) (it : String)
    (fresh : Nat) (h : s.manager.isSome = true) :
    V1.License.init cfg s it false fresh = s := by
  simp [V1.License.init, h]

/-- A first-variant `init` on a shutting-down state returns the state
unchanged, for any `forceRecreate`. -/
theorem v1_init_noop_of_shuttingDown (cfg : Config) (s : V1.License) (it : String)
    (fr : Bool) (fresh : Nat) (h : s.isShuttingDown = true) :
    V1.License.init cfg s it fr fresh = s := by
  unfold V1.License.init
  by_cases hm : (s.manager.isSome && !fr) = true
  · simp [hm]
  · simp [hm, h]

/-- A first-variant `init` sequence without `forceRecreate` leaves a state
that already holds a manager unchanged. -/
theorem v1_runInits_noop_of_isSome (cfg : Config) (s : V1.License) (fresh : Nat)
    (calls : List V1.InitArgs) (hs : s.manager.isSome = true)
    (hc : ∀ a ∈ calls, a.forceRecreate = false) :
    V1.License.runInits cfg s fresh calls = s := by
  induction calls generalizing fresh with
  | nil => rfl
  | cons a rest ih =>
      have ha : a.forceRecreate = false := hc a (List.mem_cons_self a rest)
      simp only [V1.License.runInits, ha,
        v1_init_noop_of_isSome cfg s a.instanceType fresh hs]
      exact ih (fresh + 1) (fun b hb => hc b (List.mem_cons_of_mem a hb))

/-- A first-variant `init` sequence on a shutting-down state leaves it
unchanged, whatever the arguments. -/
theorem v1_runInits_noop_of_shuttingDown (cfg : Config) (s : V1.License) (fresh : Nat)
    (calls : List V1.InitArgs) (hs : s.isShuttingDown = true) :
    V1.License.runInits cfg s fresh calls = s := by
  induction calls generalizing fresh with
  | nil => rfl
  | cons a rest ih =>
      simp only [V1.License.runInits,
        v1_init_noop_of_shuttingDown cfg s a.instanceType a.forceRecreate fresh hs]
      exact ih (fresh + 1)

/-- A second-variant `init` without `forceRecreate` on a state that
already holds a manager returns the state unchanged. -/
theorem v2_init_noop_of_isSome (cfg : Config) (inst : InstanceSettings) (s : V2.License)
    (fresh : Nat) (h : s.manager.isSome = true) :
    V2.License.init cfg inst s false fresh = s := by
  simp [V2.License.init, h]

/-- A second-variant `init` on a shutting-down state returns the state
unchanged, for any `forceRecreate`. -/
theorem v2_init_noop_of_shuttingDown (cfg : Config) (inst : InstanceSettings)
    (s : V2.License) (fr : Bool) (fresh : Nat) (h : s.isShuttingDown = true) :
    V2.License.init cfg inst s fr fresh = s := by
  unfold V2.License.init
  by_cases hm : (s.manager.isSome && !fr) = true
  · simp [hm]
  · simp [hm, h]

/-- A second-variant `init` sequence without `forceRecreate` leaves a
state that already holds a manager unchanged. -/
theorem v2_runInits_noop_of_isSome (cfg : Config) (inst : InstanceSettings)
    (s : V2.License) (fresh : Nat) (calls : List Bool)
    (hs : s.manager.isSome = true) (hc : ∀ b ∈ calls, b = false) :
    V2.License.runInits cfg inst s fresh calls = s := by
  induction calls generalizing fresh with
  | nil => rfl
  | cons b rest ih =>
      have hb : b = false := hc b (List.mem_cons_self b rest)
      subst hb
      simp only [V2.License.runInits, v2_init_noop_of_isSome cfg inst s fresh hs]
      exact ih (fresh + 1) (fun c hcm => hc c (List.mem_cons_of_mem false hcm))

/-- A second-variant `init` sequence on a shutting-down state leaves it
unchanged, whatever the arguments. -/
theorem v2_runInits_noop_of_shuttingDown (cfg : Config) (inst : InstanceSettings)
    (s : V2.License) (fresh : Nat) (calls : List Bool) (hs : s.isShuttingDown = true) :
    V2.License.runInits cfg inst s fresh calls = s := by
  induction calls generalizing fresh with
  | nil => rfl
  | cons b rest ih =>
      simp only [V2.License.runInits,
        v2_init_noop_of_shuttingDown cfg inst s b fresh hs]
      exact ih (fresh + 1)

/-- C1: for every sequence of `init` calls without `forceRecreate`
starting from a fresh `License` (in either source variant), the first
call constructs a manager handle and the whole remaining sequence leaves
the state — in particular the handle identity — unchanged. -/
theorem c1_init_only_first_constructs (cfg : Config) (inst : InstanceSettings)
    (a : V1.InitArgs) (rest : List V1.InitArgs) (rest2 : List Bool) (fresh : Nat)
    (ha : a.forceRecreate = false)
    (hrest : ∀ b ∈ rest, b.forceRecreate = false)
    (hrest2 : ∀ b ∈ rest2, b = false) :
    ((V1.License.init cfg V1.License.mkFresh a.instanceType a.forceRecreate
        fresh).manager.isSome = true ∧
      V1.License.runInits cfg
        (V1.License.init cfg V1.License.mkFresh a.instanceType a.forceRecreate fresh)
        (fresh + 1) rest
      = V1.License.init cfg V1.License.mkFresh a.instanceType a.forceRecreate fresh) ∧
    ((V2.License.init cfg inst V2.License.mkFresh false fresh).manager.isSome = true ∧
      V2.License.runInits cfg inst
        (V2.License.init cfg inst V2.License.mkFresh false fresh) (fresh + 1) rest2
      = V2.License.init cfg inst V2.License.mkFresh false fresh) := by
  rw [ha]
  have h1 : (V1.License.init cfg V1.License.mkFresh a.instanceType false
      fresh).manager.isSome = true := by
    simp [V1.License.init, V1.License.mkFresh]
  have h2 : (V2.License.init cfg inst V2.License.mkFresh false
      fresh).manager.isSome = true := by
    simp [V2.License.init, V2.License.mkFresh]
  exact ⟨⟨h1, v1_runInits_noop_of_isSome cfg _ (fresh + 1) rest h1 hrest⟩,
    ⟨h2, v2_runInits_noop_of_isSome cfg inst _ (fresh + 1) rest2 h2 hrest2⟩⟩

/-- C1 witness: a concrete two-call sequence in each variant. -/
theorem c1_init_only_first_constructs_witness :
    ((V1.License.init cfg0 V1.License.mkFresh "main" false 0).manager.isSome = true ∧
      V1.License.runInits cfg0
        (V1.License.init cfg0 V1.License.mkFresh "main" false 0) 1
        [{ instanceType := "main", forceRecreate := false }]
      = V1.License.init cfg0 V1.License.mkFresh "main" false 0) ∧
    ((V2.License.init cfg0 instMain V2.License.mkFresh false 0).manager.isSome = true ∧
      V2.License.runInits cfg0 instMain
        (V2.License.init cfg0 instMain V2.License.mkFresh false 0) 1 [false]
      = V2.License.init cfg0 instMain V2.License.mkFresh false 0) :=
  c1_init_only_first_constructs cfg0 instMain
    { instanceType := "main", forceRecreate := false }
    [{ instanceType := "main", forceRecreate := false }] [false] 0 rfl
    (by decide) (by decide)

/-- C2: once `shutdown` has begun (it sets `isShuttingDown` first, and the
awaited handle shutdown does not touch the `License` fields), every
subsequent `init` sequence — with or without `forceRecreate` — leaves the
state unchanged and never constructs a new manager handle, in either
source variant. -/
theorem c2_init_noop_after_shutdown (cfg : Config) (inst : InstanceSettings)
    (s : V1.License) (t : V2.License) (calls : List V1.InitArgs)
    (calls2 : List Bool) (fresh : Nat) :
    ((V1.License.shutdown s).isShuttingDown = true ∧
      V1.License.runInits cfg (V1.License.shutdown s) fresh calls
        = V1.License.shutdown s ∧
      (V1.License.shutdown s).manager = s.manager) ∧
    ((V2.License.shutdown t).isShuttingDown = true ∧
      V2.License.runInits cfg inst (V2.License.shutdown t) fresh calls2
        = V2.License.shutdown t ∧
      (V2.License.shutdown t).manager = t.manager) :=
  ⟨⟨rfl, v1_runInits_noop_of_shuttingDown cfg _ fresh calls rfl, rfl⟩,
    ⟨rfl, v2_runInits_noop_of_shuttingDown cfg inst _ fresh calls2 rfl, rfl⟩⟩

/-- C10: in every state of the `License` object of either variant,
`isWithinUsersLimit` returns `true`, because `getUsersLimit` is the
unlimited quota constant and `isWithinUsersLimit` compares its result to
that same constant. -/
theorem c10_always_within_users_limit (s : V1.License) (t : V2.License) :
    V1.License.getUsersLimit s = UNLIMITED_LICENSE_QUOTA ∧
    V1.License.isWithinUsersLimit s = true ∧
    V2.License.getUsersLimit t = UNLIMITED_LICENSE_QUOTA ∧
    V2.License.isWithinUsersLimit t = true :=
  ⟨rfl, rfl, rfl, rfl⟩

/-- A multi-main configuration whose configured multi-main instance type
is `follower`. -/
def cfgMultiMainFollower : Config :=
  { cfg0 with multiMainSetupEnabled := true, multiMainInstanceType := "follower" }

/-- C3 counterexample: with role `main`, auto-renew enabled and
multi-main disabled, the claim requires renewal to be enabled, but both
source variants return `false` (the first variant's no-multi-main branch
is a hardcoded `false`; the second variant returns `false`
unconditionally). -/
theorem c3_renewal_truth_table_counterexample :
    cfg0.autoRenewEnabled = true ∧ cfg0.multiMainSetupEnabled = false ∧
    V1.renewalEnabled cfg0 "main" = false ∧
    V2.renewalEnabled instMain cfg0 = false := by
  decide

/-- C3 amended: role = `main`, auto-renew enabled, multi-main disabled
yields renewal DISABLED (not enabled, as claimed); role = `main`,
auto-renew enabled, multi-main enabled, not leader yields disabled; any
role other than `main` yields disabled regardless of the other flags; and
the second variant disables renewal unconditionally. -/
theorem c3_renewal_truth_table_amended (cfg : Config) (inst : InstanceSettings)
    (instanceType : String) :
    (cfg.autoRenewEnabled = true → cfg.multiMainSetupEnabled = false →
      V1.renewalEnabled cfg "main" = false) ∧
    (cfg.autoRenewEnabled = true → cfg.multiMainSetupEnabled = true →
      cfg.multiMainInstanceType ≠ "leader" →
      V1.renewalEnabled cfg "main" = false) ∧
    (instanceType ≠ "main" → V1.renewalEnabled cfg instanceType = false) ∧
    V2.renewalEnabled inst cfg = false := by
  refine ⟨fun _ hmm => ?_, fun _ hmm hlead => ?_, fun hit => ?_, rfl⟩
  · simp [V1.renewalEnabled, hmm]
  · simp [V1.renewalEnabled, hmm, hlead]
  · simp [V1.renewalEnabled, hit]

/-- C3 amended witness: each row discharged at a concrete configuration. -/
theorem c3_renewal_truth_table_amended_witness :
    V1.renewalEnabled cfg0 "main" = false ∧
    V1.renewalEnabled cfgMultiMainFollower "main" = false ∧
    V1.renewalEnabled cfg0 "worker" = false ∧
    V2.renewalEnabled instMain cfg0 = false :=
  ⟨(c3_renewal_truth_table_amended cfg0 instMain "worker").1 rfl rfl,
    (c3_renewal_truth_table_amended cfgMultiMainFollower instMain "worker").2.1
      rfl rfl (by decide),
    (c3_renewal_truth_table_amended cfg0 instMain "worker").2.2.1 (by decide),
    (c3_renewal_truth_table_amended cfg0 instMain "worker").2.2.2⟩

/-- C5: while no provider has been installed, both `isLicensed` and
`getValue` throw the distinguished provider-not-set error for every
feature flag, and neither ever returns a value. -/
theorem c5_provider_not_set_throws (s : LicenseState) (feature : String)
    (h : s.licenseProvider = none) :
    s.isLicensed feature = Except.error providerNotSetError ∧
    s.getValue feature = Except.error providerNotSetError ∧
    (∀ b, s.isLicensed feature ≠ Except.ok b) ∧
    (∀ v, s.getValue feature ≠ Except.ok v) := by
  refine ⟨?_, ?_, ?_, ?_⟩ <;>
    simp [LicenseState.isLicensed, LicenseState.getValue, h]

/-- C5 witness: the freshly constructed facade (provider field `null`)
queried for a concrete feature. -/
theorem c5_provider_not_set_throws_witness :
    (LicenseState.mk none).isLicensed "feat:sharing"
      = Except.error providerNotSetError ∧
    (LicenseState.mk none).getValue "feat:sharing"
      = Except.error providerNotSetError ∧
    (∀ b, (LicenseState.mk none).isLicensed "feat:sharing" ≠ Except.ok b) ∧
    (∀ v, (LicenseState.mk none).getValue "feat:sharing" ≠ Except.ok v) :=
  c5_provider_not_set_throws (LicenseState.mk none) "feat:sharing" rfl

/-- C6: whenever an ephemeral certificate is configured (truthy, i.e.
nonempty), `loadCertStr` returns it for every storage state, and
`saveCertStr` leaves the storage unchanged for every certificate
argument. -/
theorem c6_ephemeral_cert_wins (cfg : Config) (db : SettingsDb) (value : String)
    (h : cfg.licenseCert ≠ "") :
    V1.loadCertStr cfg db = cfg.licenseCert ∧
    V1.saveCertStr cfg db value = db := by
  constructor <;> simp [V1.loadCertStr, V1.saveCertStr, h]

/-- C6 witness: a configured ephemeral certificate, a nonempty storage
holding a different certificate, and a save attempt. -/
theorem c6_ephemeral_cert_wins_witness :
    V1.loadCertStr { cfg0 with licenseCert := "EPHEMERAL-CERT" }
        [{ key := SETTINGS_LICENSE_CERT_KEY, value := "STORED-CERT", loadOnStartup := false }]
      = "EPHEMERAL-CERT" ∧
    V1.saveCertStr { cfg0 with licenseCert := "EPHEMERAL-CERT" }
        [{ key := SETTINGS_LICENSE_CERT_KEY, value := "STORED-CERT", loadOnStartup := false }]
        "NEW-CERT"
      = [{ key := SETTINGS_LICENSE_CERT_KEY, value := "STORED-CERT", loadOnStartup := false }] :=
  c6_ephemeral_cert_wins { cfg0 with licenseCert := "EPHEMERAL-CERT" }
    [{ key := SETTINGS_LICENSE_CERT_KEY, value := "STORED-CERT", loadOnStartup := false }]
    "NEW-CERT" (by decide)

/-- Upserting a row and then looking its key up finds exactly the
upserted row, in both the overwrite and the append branch. -/
theorem findOneByKey_upsertByKey (db : SettingsDb) (e : Setting) :
    findOneByKey (upsertByKey db e) e.key = some e := by
  unfold upsertByKey
  by_cases h : db.any (fun s => s.key == e.key) = true
  · rw [if_pos h]
    induction db with
    | nil => simp at h
    | cons s t ih =>
        by_cases hk : (s.key == e.key) = true
        · simp [findOneByKey, List.find?, hk]
        · have ht : t.any (fun s => s.key == e.key) = true := by
            simp [List.any_cons, hk] at h
            simpa using h
          simpa [findOneByKey, List.find?, hk] using ih ht
  · rw [if_neg h]
    induction db with
    | nil => simp [findOneByKey, List.find?]
    | cons s t ih =>
        have hs : (s.key == e.key) = false := by
          cases hk : (s.key == e.key) with
          | false => rfl
          | true => exact absurd (by simp [List.any_cons, hk]) h
        have ht : ¬t.any (fun s => s.key == e.key) = true := by
          intro hc
          exact h (by simp [List.any_cons, hc])
        simpa [findOneByKey, List.find?, hs] using ih ht

/-- C9: with no ephemeral certificate configured, saving a certificate
and then immediately loading returns exactly the just-saved value, for
every starting storage state and every value. -/
theorem c9_save_load_roundtrip (cfg : Config) (db : SettingsDb) (value : String)
    (h : cfg.licenseCert = "") :
    V1.loadCertStr cfg (V1.saveCertStr cfg db value) = value := by
  simp [V1.loadCertStr, V1.saveCertStr, h,
    findOneByKey_upsertByKey db
      { key := SETTINGS_LICENSE_CERT_KEY, value := value, loadOnStartup := false }]

/-- C9 witness: a concrete round-trip through an initially empty storage
and through a storage already holding a certificate row. -/
theorem c9_save_load_roundtrip_witness :
    V1.loadCertStr cfg0 (V1.saveCertStr cfg0 [] "CERT-A") = "CERT-A" ∧
    V1.loadCertStr cfg0
        (V1.saveCertStr cfg0
          [{ key := SETTINGS_LICENSE_CERT_KEY, value := "OLD", loadOnStartup := false }]
          "CERT-B")
      = "CERT-B" :=
  ⟨c9_save_load_roundtrip cfg0 [] "CERT-A" rfl,
    c9_save_load_roundtrip cfg0
      [{ key := SETTINGS_LICENSE_CERT_KEY, value := "OLD", loadOnStartup := false }]
      "CERT-B" rfl⟩

/-- A configuration selecting s3 binary data with s3 listed as an
available mode. -/
def cfgS3 : Config :=
  { cfg0 with binaryDataMode := "s3", binaryDataAvailableModes := ["filesystem", "s3"] }

/-- A queue-mode configuration with multi-main coordination disabled. -/
def cfgQueue : Config :=
  { cfg0 with executionsMode := "queue" }

/-- A queue-mode configuration with multi-main coordination enabled. -/
def cfgQueueMultiMain : Config :=
  { cfg0 with executionsMode := "queue", multiMainSetupEnabled := true }

/-- The first variant's reactor tail never changes the object store: the
read-only branch is guarded by the negation of the hardcoded
`isS3Licensed = true`. -/
theorem v1_tail_objectStore_unchanged (cfg : Config) (orch : OrchestrationService)
    (store : ObjectStoreService) :
    (V1.onFeatureChangeTail cfg orch store).objectStore = store := by
  simp [V1.onFeatureChangeTail]

/-- The second variant's reactor tail never changes the object store. -/
theorem v2_tail_objectStore_unchanged (cfg : Config) (orch : OrchestrationService)
    (store : ObjectStoreService) :
    (V2.onFeatureChangeTail cfg orch store).objectStore = store := by
  simp [V2.onFeatureChangeTail]

/-- The first variant's reactor leaves the object store unchanged on
every input. -/
theorem v1_onFeatureChange_objectStore_unchanged (cfg : Config)
    (orch : OrchestrationService) (store : ObjectStoreService) (feats : Features) :
    (V1.onFeatureChange cfg orch store feats).objectStore = store := by
  simp only [V1.onFeatureChange]
  split
  · split
    · rfl
    · exact v1_tail_objectStore_unchanged cfg _ store
  · exact v1_tail_objectStore_unchanged cfg orch store

/-- The second variant's reactor leaves the object store unchanged on
every input. -/
theorem v2_onFeatureChange_objectStore_unchanged (cfg : Config)
    (inst : InstanceSettings) (orch : OrchestrationService)
    (store : ObjectStoreService) (feats : Features) :
    (V2.onFeatureChange cfg inst orch store feats).objectStore = store := by
  simp only [V2.onFeatureChange]
  split
  · split
    · rfl
    · exact v2_tail_objectStore_unchanged cfg _ store
  · exact v2_tail_objectStore_unchanged cfg orch store

/-- C4 counterexample: with s3 selected, s3 available, the s3 feature not
licensed in the received feature set, and a writable object store, the
claim requires the reactor to set the store read-only, but both source
variants leave it writable — each hardcodes `isS3Licensed = true` and
ignores the received feature set, so the read-only branch is dead. -/
theorem c4_s3_readonly_counterexample :
    cfgS3.binaryDataMode = "s3" ∧
    cfgS3.binaryDataAvailableModes.contains "s3" = true ∧
    Features.flag featsS3Unlicensed "feat:binaryDataS3" = some false ∧
    (V1.onFeatureChange cfgS3 orch0 store0 featsS3Unlicensed).objectStore.isReadOnly
      = false ∧
    (V2.onFeatureChange cfgS3 instMain orch0 store0 featsS3Unlicensed).objectStore.isReadOnly
      = false := by
  decide

/-- C4 amended: under the claim's inputs (s3 selected, s3 available, s3
not licensed in the received feature set) the reactor leaves the object
store completely unchanged — it never sets it read-only, because both
variants hardcode the s3 feature as licensed — and invoking it a second
time on its own output leaves the store unchanged again; as a total
function it throws nothing. -/
theorem c4_s3_readonly_amended (cfg : Config) (inst : InstanceSettings)
    (orch : OrchestrationService) (store : ObjectStoreService) (feats : Features)
    (hsel : cfg.binaryDataMode = "s3")
    (hav : cfg.binaryDataAvailableModes.contains "s3" = true)
    (hlic : Features.flag feats "feat:binaryDataS3" = some false) :
    ((V1.onFeatureChange cfg orch store feats).objectStore = store ∧
      (V1.onFeatureChange cfg
          (V1.onFeatureChange cfg orch store feats).orchestration
          (V1.onFeatureChange cfg orch store feats).objectStore feats).objectStore
        = store) ∧
    ((V2.onFeatureChange cfg inst orch store feats).objectStore = store ∧
      (V2.onFeatureChange cfg inst
          (V2.onFeatureChange cfg inst orch store feats).orchestration
          (V2.onFeatureChange cfg inst orch store feats).objectStore feats).objectStore
        = store) := by
  have h1 := v1_onFeatureChange_objectStore_unchanged cfg orch store feats
  have h2 := v2_onFeatureChange_objectStore_unchanged cfg inst orch store feats
  refine ⟨⟨h1, ?_⟩, ⟨h2, ?_⟩⟩
  · rw [h1]
    exact v1_onFeatureChange_objectStore_unchanged cfg _ store feats
  · rw [h2]
    exact v2_onFeatureChange_objectStore_unchanged cfg inst _ store feats

/-- C4 amended witness: the concrete scenario of the claim, invoked twice
in each variant. -/
theorem c4_s3_readonly_amended_witness :
    ((V1.onFeatureChange cfgS3 orch0 store0 featsS3Unlicensed).objectStore = store0 ∧
      (V1.onFeatureChange cfgS3
          (V1.onFeatureChange cfgS3 orch0 store0 featsS3Unlicensed).orchestration
          (V1.onFeatureChange cfgS3 orch0 store0 featsS3Unlicensed).objectStore
          featsS3Unlicensed).objectStore
        = store0) ∧
    ((V2.onFeatureChange cfgS3 instMain orch0 store0 featsS3Unlicensed).objectStore
        = store0 ∧
      (V2.onFeatureChange cfgS3 instMain
          (V2.onFeatureChange cfgS3 instMain orch0 store0 featsS3Unlicensed).orchestration
          (V2.onFeatureChange cfgS3 instMain orch0 store0 featsS3Unlicensed).objectStore
          featsS3Unlicensed).objectStore
        = store0) :=
  c4_s3_readonly_amended cfgS3 instMain orch0 store0 featsS3Unlicensed
    rfl (by decide) rfl

/-- C7: in queue mode with multi-main coordination enabled and this
instance a follower, the reactor of either variant records the hardcoded
multi-main-licensed flag on the orchestration component and returns
without publishing anything to the command channel. -/
theorem c7_follower_sets_flag_no_publish (cfg : Config) (inst : InstanceSettings)
    (orch : OrchestrationService) (store : ObjectStoreService) (feats : Features)
    (hq : cfg.executionsMode = "queue")
    (hmm : cfg.multiMainSetupEnabled = true)
    (hen : orch.isMultiMainSetupEnabled = true)
    (hf1 : orch.isFollower = true)
    (hf2 : inst.isFollower = true) :
    ((V1.onFeatureChange cfg orch store feats).orchestration.multiMainSetupLicensed
        = some true ∧
      (V1.onFeatureChange cfg orch store feats).published = []) ∧
    ((V2.onFeatureChange cfg inst orch store feats).orchestration.multiMainSetupLicensed
        = some true ∧
      (V2.onFeatureChange cfg inst orch store feats).published = []) := by
  simp [V1.onFeatureChange, V2.onFeatureChange,
    OrchestrationService.setMultiMainSetupLicensed, hq, hmm, hen, hf1, hf2]

/-- C7 witness: the concrete follower scenario in each variant. -/
theorem c7_follower_sets_flag_no_publish_witness :
    ((V1.onFeatureChange cfgQueueMultiMain orchFollower store0 []).orchestration.multiMainSetupLicensed
        = some true ∧
      (V1.onFeatureChange cfgQueueMultiMain orchFollower store0 []).published = []) ∧
    ((V2.onFeatureChange cfgQueueMultiMain instFollower orchFollower store0 []).orchestration.multiMainSetupLicensed
        = some true ∧
      (V2.onFeatureChange cfgQueueMultiMain instFollower orchFollower store0 []).published
        = []) :=
  c7_follower_sets_flag_no_publish cfgQueueMultiMain instFollower orchFollower
    store0 [] rfl rfl rfl rfl rfl

/-- C8 counterexample: in queue mode with multi-main coordination
disabled, the first variant publishes exactly one message, but its
command is `reloadLicense`, not `reload-license` as the claim states — so
the number of `reload-license` messages published there is zero, not
one. -/
theorem c8_reload_license_counterexample :
    cfgQueue.executionsMode = "queue" ∧
    cfgQueue.multiMainSetupEnabled = false ∧
    (V1.onFeatureChange cfgQueue orch0 store0 []).published
      = [{ command := "reloadLicense" }] ∧
    (V1.onFeatureChange cfgQueue orch0 store0 []).published.count
        { command := "reload-license" : PubSubCommand }
      = 0 := by
  decide

/-- C8 amended: in queue mode, when this instance is not a follower or
multi-main coordination is disabled, the reactor publishes exactly one
message to the command channel; its command is `reloadLicense` in the
first source variant and `reload-license` in the second. -/
theorem c8_single_publish_amended (cfg : Config) (inst : InstanceSettings)
    (orch : OrchestrationService) (store : ObjectStoreService) (feats : Features)
    (hq : cfg.executionsMode = "queue")
    (hlead : (orch.isFollower = false ∧ inst.isFollower = false) ∨
      cfg.multiMainSetupEnabled = false) :
    (V1.onFeatureChange cfg orch store feats).published
      = [{ command := "reloadLicense" }] ∧
    (V2.onFeatureChange cfg inst orch store feats).published
      = [{ command := "reload-license" }] := by
  rcases hlead with ⟨h1, h2⟩ | hmm
  · rcases Bool.eq_false_or_eq_true cfg.multiMainSetupEnabled with hmm | hmm <;>
      simp [V1.onFeatureChange, V2.onFeatureChange, V1.onFeatureChangeTail,
        V2.onFeatureChangeTail, OrchestrationService.setMultiMainSetupLicensed,
        hq, hmm, h1, h2]
  · simp [V1.onFeatureChange, V2.onFeatureChange, V1.onFeatureChangeTail,
      V2.onFeatureChangeTail, hq, hmm]

/-- C8 amended witness: queue mode with multi-main coordination disabled,
in each variant. -/
theorem c8_single_publish_amended_witness :
    (V1.onFeatureChange cfgQueue orch0 store0 []).published
      = [{ command := "reloadLicense" }] ∧
    (V2.onFeatureChange cfgQueue instMain orch0 store0 []).published
      = [{ command := "reload-license" }] :=
  c8_single_publish_amended cfgQueue instMain orch0 store0 [] rfl (Or.inr rfl)
